import Mathlib

/-!
Shallow embedding of the WF-RAC Homey device adapter
(`drivers/wfrac/device.js` and its base class `lib/Device.js`).

JavaScript objects holding device payload fields are modelled as
association lists from `String` to a JSON-like value type `JVal`.
Instance state (`this.registered`, `this.accounts`, `this.airconStat`,
capability values, settings, the warning banner, availability) is an
explicit `DevState` record threaded through each operation.  Exceptions
are modelled with `Except`, the error carrying the message together with
the state at the moment of the throw (JavaScript side effects performed
before a throw persist).  The enum tables and localization helper live
outside the translated source (`lib/Enums`, `homey.__`), so they are
parameters collected in an `Env` record.
-/


/-- JSON-like values appearing in device payload fields. -/
inductive JVal where
  | vBool : Bool → JVal
  | vNum : Int → JVal
  | vStr : String → JVal
  | vNull : JVal
deriving DecidableEq, Repr

/-- A JavaScript object with string keys, as an association list. -/
abbrev JObj := List (String × JVal)

/-- Write key `k` to value `v` in an object (JS property assignment). -/
def setKey (k : String) (v : α) : List (String × α) → List (String × α)
  | [] => [(k, v)]
  | (k', v') :: rest => if k' = k then (k, v) :: rest else (k', v') :: setKey k v rest

/-- Read key `k` from an object; `none` models an absent property. -/
def getKey (k : String) : List (String × α) → Option α
  | [] => none
  | (k', v') :: rest => if k' = k then some v' else getKey k rest

/-- Merge a patch into an object key by key, in patch order
(the `for (const [key, value] of Object.entries(properties))` loop). -/
def mergePatch (stat : JObj) (patch : JObj) : JObj :=
  patch.foldl (fun st kv => setKey kv.1 kv.2 st) stat

/-- The metadata block of a device payload: everything except `airconStat`
(`this.contents = data` after `delete data.airconStat`).  `wireless` and
`mcu` are optional objects whose only modelled property is `firmVer`
(itself possibly absent or empty, the inner `Option String`). -/
structure Contents where
  wireless : Option (Option String)
  mcu : Option (Option String)
  numOfAccount : Option Int
  firmType : Option String
deriving DecidableEq, Repr

/-- A device payload as received by `sync` / returned by the transport
client: an optional `airconStat` control block plus the metadata. -/
structure Payload where
  airconStat : Option JObj
  numOfAccount : Option Int
  firmType : Option String
  wireless : Option (Option String)
  mcu : Option (Option String)
deriving DecidableEq, Repr

/-- Modelled from the spec: `blank` from `lib/Utils` (not under `src/`),
"Reject a fetch result that is empty/blank" — a payload is blank when it
carries none of its fields (an empty object). -/
def Payload.isBlank (p : Payload) : Bool :=
  p.airconStat = none && p.numOfAccount = none && p.firmType = none
    && p.wireless = none && p.mcu = none

/-- The metadata kept from a payload (`data` minus `airconStat`). -/
def Payload.contentsOf (p : Payload) : Contents :=
  ⟨p.wireless, p.mcu, p.numOfAccount, p.firmType⟩

/-- Modelled from the spec: `filled` from `lib/Utils` (not under `src/`),
settings are updated "only for fields that are non-empty" — a string field
is filled when present and non-empty. -/
def filledStr : Option String → Bool
  | none => false
  | some s => !s.isEmpty

/-- JavaScript truthiness of the numeric `this.accounts` field
(`null`, absent and `0` are falsy). -/
def accountsTruthy : Option Int → Bool
  | none => false
  | some n => n ≠ 0

/-- JavaScript truthiness of the string `this.firmware` field
(`null` and the empty string are falsy). -/
def firmwareTruthy : Option String → Bool
  | none => false
  | some s => !s.isEmpty

/-- The `message` property of `new Error(x)` where `x` is a possibly-null
string (`new Error(null)` stringifies to "null"). -/
def jsErrorMessage : Option String → String
  | none => "null"
  | some m => m

/-- Message of the TypeError raised by writing a property of `undefined`
(`this.airconStat[key] = value` with `this.airconStat` unset). -/
def cannotSetOfUndefined : String := "Cannot set properties of undefined"

/-- Message of the TypeError raised by reading `firmVer` of an absent
`wireless`/`mcu` object in `syncSettings`. -/
def cannotReadFirmVer : String := "Cannot read properties of undefined"

/-- The session state of one device (instance fields of the device class
plus the host-held capability values, settings and warning banner).
`registerAttempts` counts calls of `client.updateAccountInfo()` and
`networkCalls` counts every transport-client call, both as observations. -/
structure DevState where
  registered : Bool
  available : Bool
  accounts : Option Int
  firmware : Option String
  airconStat : Option JObj
  contents : Option Contents
  capabilities : JObj
  capSet : List String
  settings : List (String × String)
  warning : Option String
  unavailableMsg : Option String
  registerAttempts : Nat
  networkCalls : Nat
deriving DecidableEq, Repr

/-- External collaborators of the translated code: the localization
helper `homey.__` (`loc` for plain message keys, `locFirmware` for the
templated firmware warning) and the enum tables of `lib/Enums` (not under
`src/`): value-to-name and code-to-value maps used by the capability
mappings, modelled as abstract functions on `JVal`. -/
structure Env where
  loc : String → String
  locFirmware : String → String
  airFlow : JVal → JVal
  horizontalPosition : JVal → JVal
  operationMode : JVal → JVal
  verticalPosition : JVal → JVal
  airFlowNames : JVal → JVal
  horizontalPositionNames : JVal → JVal
  operationModeNames : JVal → JVal
  verticalPositionNames : JVal → JVal

/-- Translation of `WFRACDevice.syncAirconStat` applied to a payload
(`data` supplied by the caller, or the result of `getAirconStat`): a blank
payload is rejected as a no-op; otherwise the device is marked available,
the control block and metadata are stored, and `accounts` / `firmware`
are extracted (absent keys becoming null). -/
def syncAirconStatWith (p : Payload) (s : DevState) : DevState :=
  if p.isBlank then s
  else
    { s with
      available := true
      unavailableMsg := none
      airconStat := p.airconStat
      contents := some p.contentsOf
      accounts := p.numOfAccount
      firmware := p.firmType }

/-- The fetch variant (`syncAirconStat()` with no argument): one
`getAirconStat` network call whose response is `fetched`. -/
def syncAirconStatFetch (fetched : Payload) (s : DevState) : DevState :=
  syncAirconStatWith fetched { s with networkCalls := s.networkCalls + 1 }

/-- One row of the capability table of `syncCapabilities`: the payload
field read, the capability guarding the update (`hasCapability`), the
capability written (`setCapabilityValue`), and the value mapping. -/
structure CapEntry where
  field : String
  guardCap : String
  targetCap : String
  mapVal : JVal → JVal

/-- The nine conditional updates of `WFRACDevice.syncCapabilities`, in
source order.  Note the outdoor temperature row: its guard checks
`measure_temperature` but it writes `measure_temperature.outdoor`,
exactly as in the source. -/
def capabilityTable (env : Env) : List CapEntry :=
  [ ⟨"entrust", "3d_auto", "3d_auto", id⟩,
    ⟨"airFlow", "fan_speed", "fan_speed", env.airFlow⟩,
    ⟨"windDirectionLR", "horizontal_position", "horizontal_position", env.horizontalPosition⟩,
    ⟨"indoorTemp", "measure_temperature", "measure_temperature", id⟩,
    ⟨"operation", "onoff", "onoff", id⟩,
    ⟨"operationMode", "operating_mode", "operating_mode", env.operationMode⟩,
    ⟨"outdoorTemp", "measure_temperature", "measure_temperature.outdoor", id⟩,
    ⟨"presetTemp", "target_temperature", "target_temperature", id⟩,
    ⟨"windDirectionUD", "vertical_position", "vertical_position", env.verticalPosition⟩ ]

/-- Apply one row of the capability table: if the field is present in the
control block and the device has the guard capability, write the mapped
value to the target capability. -/
def applyCapEntry (stat : JObj) (s : DevState) (e : CapEntry) : DevState :=
  match getKey e.field stat with
  | none => s
  | some v =>
    if s.capSet.contains e.guardCap then
      { s with capabilities := setKey e.targetCap (e.mapVal v) s.capabilities }
    else s

/-- Translation of `WFRACDevice.syncCapabilities`: no-op without a stored
control block, else the nine conditional capability updates in order. -/
def syncCapabilities (env : Env) (s : DevState) : DevState :=
  match s.airconStat with
  | none => s
  | some stat => (capabilityTable env).foldl (applyCapEntry stat) s

/-- Translation of `WFRACDevice.setFirmwareWarning` as a predicate: true
(warning raised) iff the firmware field is truthy and differs from the
canonical value. -/
def firmwareHasWarning (fw : Option String) : Bool :=
  firmwareTruthy fw && fw ≠ some "WF-RAC"

/-- The local `settings` object staged by `syncSettings`: account count
when truthy, firmware type / wifi firmware / mcu firmware when filled, in
source order. -/
def stagedSettings (s : DevState) (wFirm mFirm : Option String) : List (String × String) :=
  let st1 := if accountsTruthy s.accounts then
      setKey "accounts" (toString (s.accounts.getD 0)) ([] : List (String × String))
    else []
  let st2 := if filledStr s.firmware then
      setKey "firmware_type" (s.firmware.getD "") st1
    else st1
  let st3 := if filledStr wFirm then
      setKey "wifi_firmware" (wFirm.getD "") st2
    else st2
  if filledStr mFirm then setKey "mcu_firmware" (mFirm.getD "") st3 else st3

/-- `setSettings` merging a staged settings object into the persisted
settings. -/
def mergeSettings (base patch : List (String × String)) : List (String × String) :=
  patch.foldl (fun acc kv => setKey kv.1 kv.2 acc) base

/-- The `setSettings` call of `syncSettings`: apply the staged settings
when non-empty. -/
def settingsApplied (s : DevState) (wFirm mFirm : Option String) : DevState :=
  if (stagedSettings s wFirm mFirm).isEmpty then s
  else { s with settings := mergeSettings s.settings (stagedSettings s wFirm mFirm) }

/-- Translation of `WFRACDevice.syncSettings`.  Returns `Except` because
`this.contents.wireless.firmVer` / `this.contents.mcu.firmVer` throw a
TypeError when the `wireless` / `mcu` object is absent; the error carries
the state at the throw (the staged `settings` object is local, so the
state is unchanged there).  On the normal path the staged settings are
merged into the stored settings when non-empty, then either the firmware
warning is set (skipping the clear) or the warning is cleared. -/
def syncSettingsStep (env : Env) (s : DevState) : Except (String × DevState) DevState :=
  match s.contents with
  | none => .ok s
  | some c =>
    match c.wireless with
    | none => .error (cannotReadFirmVer, s)
    | some wFirm =>
      match c.mcu with
      | none => .error (cannotReadFirmVer, s)
      | some mFirm =>
        if firmwareHasWarning s.firmware then
          .ok { settingsApplied s wFirm mFirm with
                warning := some (env.locFirmware (s.firmware.getD "")) }
        else
          .ok { settingsApplied s wFirm mFirm with warning := none }

/-- Translation of `WFRACDevice.getAccountWarning`: null when registered
or the account count is falsy; `warning.accounts` above three accounts;
`warning.unregistered` otherwise. -/
def getAccountWarning (s : DevState) : Option String :=
  if s.registered then none
  else
    match s.accounts with
    | none => none
    | some n =>
      if n = 0 then none
      else if n > 3 then some "warning.accounts"
      else some "warning.unregistered"

/-- Translation of `WFRACDevice.registerAccount`: no-op when unavailable,
else one `updateAccountInfo` network call and the device is marked
registered. -/
def registerAccount (s : DevState) : DevState :=
  if !s.available then s
  else
    { s with
      registered := true
      registerAttempts := s.registerAttempts + 1
      networkCalls := s.networkCalls + 1 }

/-- The tail of `syncAccount`: recompute the account warning and set or
clear the banner. -/
def accountWarningApplied (env : Env) (s1 : DevState) : DevState :=
  match getAccountWarning s1 with
  | none => { s1 with warning := none }
  | some w => { s1 with warning := some (env.loc w) }

/-- Translation of `WFRACDevice.syncAccount`: early return when already
registered, unavailable, or the account count is falsy; registration is
attempted below four accounts; then the account warning is recomputed and
the banner set or cleared accordingly. -/
def syncAccount (env : Env) (s : DevState) : DevState :=
  if s.registered then s
  else if !s.available then s
  else
    match s.accounts with
    | none => s
    | some n =>
      if n = 0 then s
      else
        accountWarningApplied env (if n < 4 then registerAccount s else s)

/-- The body of the `try` block of `Device.sync`: the four steps in
order, short-circuiting at the first throw. -/
def syncTry (env : Env) (p : Payload) (s : DevState) : Except (String × DevState) DevState :=
  match syncSettingsStep env (syncCapabilities env (syncAirconStatWith p s)) with
  | .error e => .error e
  | .ok s3 => .ok (syncAccount env s3)

/-- Translation of `Device.sync`: the steps with the single top-level
catch, which localizes the error message and marks the device
unavailable.  `sync` is a total function into `DevState`: no exception
escapes it. -/
def sync (env : Env) (p : Payload) (s : DevState) : DevState :=
  match syncTry env p s with
  | .ok s' => s'
  | .error (e, s1) => { s1 with available := false, unavailableMsg := some (env.loc e) }

/-- Outcome of `Device.updateDevice`: silent early return when the device
is unavailable (`this.error(...)` only logs), a re-thrown localized error,
or success. -/
inductive UpdOutcome where
  | notAvailable : UpdOutcome
  | failed : String → UpdOutcome
  | ok : UpdOutcome
deriving DecidableEq, Repr

/-- Result of `Device.updateDevice`: the final state, the outcome, and an
observation of the argument passed to `client.setAirconStat` (the merged
control state), `none` when no send happened. -/
structure UpdResult where
  state : DevState
  outcome : UpdOutcome
  sent : Option JObj
deriving DecidableEq, Repr

/-- Translation of `Device.updateDevice` (the command dispatcher,
`applyPatch` in the spec).  `fetched` is the response of the
`getAirconStat` fetch inside the inner `syncAirconStat()` and `resp` the
response of `setAirconStat`.  Unavailable: early return, nothing done.
Unregistered: throws `Error(getAccountWarning())`, caught and re-thrown
localized.  Otherwise the control state is fetched, the caller's
properties are merged key by key, the merged state is sent, and the
response is fed into `sync`.  Writing a key of an unset control state
throws a TypeError, likewise caught and re-thrown localized.
`updateSend` is the part after the precondition checks: merge the
caller's properties into the fetched control state, send, and sync the
response. -/
def updateSend (env : Env) (resp : Payload) (props : JObj) (s1 : DevState) : UpdResult :=
  match s1.airconStat with
  | none =>
    match props with
    | _ :: _ => ⟨s1, .failed (env.loc cannotSetOfUndefined), none⟩
    | [] =>
      ⟨sync env resp { s1 with networkCalls := s1.networkCalls + 1 }, .ok, none⟩
  | some stat =>
    ⟨sync env resp
      { s1 with
        airconStat := some (mergePatch stat props)
        networkCalls := s1.networkCalls + 1 },
     .ok, some (mergePatch stat props)⟩

def updateDevice (env : Env) (fetched resp : Payload) (props : JObj) (s : DevState) :
    UpdResult :=
  if !s.available then ⟨s, .notAvailable, none⟩
  else if !s.registered then
    ⟨s, .failed (env.loc (jsErrorMessage (getAccountWarning s))), none⟩
  else
    updateSend env resp props (syncAirconStatFetch fetched s)

/-- The patch queued by `WFRACDevice.onCapabilityHorizontalPosition`:
the mapped vane code together with `entrust: false`. -/
def horizontalPositionPatch (env : Env) (value : JVal) : JObj :=
  [("windDirectionLR", env.horizontalPositionNames value), ("entrust", .vBool false)]

/-- The patch queued by `WFRACDevice.onCapabilityVerticalPosition`:
the mapped vane code together with `entrust: false`. -/
def verticalPositionPatch (env : Env) (value : JVal) : JObj :=
  [("windDirectionUD", env.verticalPositionNames value), ("entrust", .vBool false)]

/-- The state a step of `syncTry` left behind, whether it returned or
threw. -/
def stepState : Except (String × DevState) DevState → DevState
  | .ok s => s
  | .error (_, s) => s

/-- A concrete environment for witnesses: identity enum tables and
tagging localizers. -/
def env0 : Env :=
  { loc := fun k => k
    locFirmware := fun f => String.append "unsupported firmware " f
    airFlow := fun v => v
    horizontalPosition := fun v => v
    operationMode := fun v => v
    verticalPosition := fun v => v
    airFlowNames := fun v => v
    horizontalPositionNames := fun v => v
    operationModeNames := fun v => v
    verticalPositionNames := fun v => v }

/-- A concrete base state for witnesses: available, unregistered, with
the on/off and fan-speed capabilities, nothing synced yet. -/
def s0 : DevState :=
  { registered := false
    available := true
    accounts := none
    firmware := none
    airconStat := none
    contents := none
    capabilities := []
    capSet := ["3d_auto", "fan_speed", "horizontal_position", "measure_temperature",
               "onoff", "operating_mode", "target_temperature", "vertical_position"]
    settings := []
    warning := none
    unavailableMsg := none
    registerAttempts := 0
    networkCalls := 0 }

/-- The payload of the C1 scenario exactly as the spec writes it:
an `airconStat` with `operation: true` and `airFlow: 2`, one account,
canonical firmware type, and no `wireless` / `mcu` objects. -/
def scenarioPayload : Payload :=
  { airconStat := some [("operation", .vBool true), ("airFlow", .vNum 2)]
    numOfAccount := some 1
    firmType := some "WF-RAC"
    wireless := none
    mcu := none }

/-- The C1 scenario payload completed with the `wireless` and `mcu`
objects a real device reports (the fields `syncSettings` dereferences
unconditionally). -/
def scenarioPayloadFull : Payload :=
  { scenarioPayload with wireless := some (some "1.0"), mcu := some (some "2.0") }

def pBadFirmware : Payload :=
  { airconStat := none, numOfAccount := some 1, firmType := some "XX",
    wireless := some (some "1.0"), mcu := some (some "2.0") }

def sReg : DevState := { s0 with registered := true }

def pFetch : Payload :=
  { airconStat := some [("presetTemp", .vNum 20), ("operation", .vBool true)],
    numOfAccount := some 1, firmType := some "WF-RAC",
    wireless := some (some "1.0"), mcu := some (some "2.0") }

def pBlank : Payload :=
  { airconStat := none, numOfAccount := none, firmType := none, wireless := none, mcu := none }

def sUnavail : DevState := { s0 with available := false }

def sUnreg : DevState := { s0 with accounts := some 1 }

/-- A payload reporting five registered accounts (above the limit of
three), with `wireless` and `mcu` objects present. -/
def pFiveAccounts : Payload :=
  { airconStat := none, numOfAccount := some 5, firmType := some "WF-RAC",
    wireless := some (some "1.0"), mcu := some (some "2.0") }

/-- A payload reporting five registered accounts but carrying no
`wireless` / `mcu` objects. -/
def pFiveNoModules : Payload :=
  { airconStat := none, numOfAccount := some 5, firmType := some "WF-RAC",
    wireless := none, mcu := none }

/-- A payload reporting one registered account but carrying no
`wireless` / `mcu` objects. -/
def pOneNoModules : Payload :=
  { airconStat := none, numOfAccount := some 1, firmType := some "WF-RAC",
    wireless := none, mcu := none }

/-- A state holding an empty control block: every mapped field absent. -/
def sEmptyStat : DevState := { s0 with airconStat := some [] }

/-!  Shape, frame and evaluation lemmas about the sync steps. -/

theorem getKey_setKey_self (k : String) (v : α) (l : List (String × α)) :
    getKey k (setKey k v l) = some v := by
  induction l with
  | nil => simp [setKey, getKey]
  | cons hd tl ih =>
    obtain ⟨k', v'⟩ := hd
    by_cases h : k' = k
    · simp [setKey, getKey, h]
    · simp [setKey, getKey, h, ih]

theorem getKey_setKey_ne (k k' : String) (v : α) (l : List (String × α)) (h : k' ≠ k) :
    getKey k (setKey k' v l) = getKey k l := by
  induction l with
  | nil => simp [setKey, getKey, h]
  | cons hd tl ih =>
    obtain ⟨k₀, v₀⟩ := hd
    by_cases h0 : k₀ = k'
    · subst h0
      simp [setKey, getKey, h]
    · by_cases h1 : k₀ = k
      · simp [setKey, getKey, h0, h1, Ne.symm h]
      · simp [setKey, getKey, h0, h1, ih]

theorem applyCapEntry_shape (stat : JObj) (s : DevState) (e : CapEntry) :
    ∃ caps, applyCapEntry stat s e = { s with capabilities := caps } := by
  obtain ⟨reg, avail, acc, fw, ast, cont, caps, cset, sett, warn, umsg, ra, nc⟩ := s
  unfold applyCapEntry
  cases getKey e.field stat with
  | none => exact ⟨caps, rfl⟩
  | some v =>
    cases h : cset.contains e.guardCap with
    | true => exact ⟨setKey e.targetCap (e.mapVal v) caps, by simp [h]⟩
    | false => exact ⟨caps, by simp [h]⟩

theorem foldl_applyCapEntry_shape (stat : JObj) (es : List CapEntry) (s : DevState) :
    ∃ caps, es.foldl (applyCapEntry stat) s = { s with capabilities := caps } := by
  induction es generalizing s with
  | nil => exact ⟨s.capabilities, rfl⟩
  | cons e es ih =>
    obtain ⟨c1, h1⟩ := applyCapEntry_shape stat s e
    obtain ⟨c2, h2⟩ := ih (applyCapEntry stat s e)
    refine ⟨c2, ?_⟩
    rw [List.foldl_cons, h2, h1]

theorem syncCapabilities_shape (env : Env) (s : DevState) :
    ∃ caps, syncCapabilities env s = { s with capabilities := caps } := by
  obtain ⟨reg, avail, acc, fw, ast, cont, caps, cset, sett, warn, umsg, ra, nc⟩ := s
  unfold syncCapabilities
  cases ast with
  | none => exact ⟨caps, rfl⟩
  | some stat => exact foldl_applyCapEntry_shape stat (capabilityTable env) _

theorem accountWarningApplied_eq (env : Env) (s : DevState) :
    accountWarningApplied env s =
      { s with warning := (accountWarningApplied env s).warning } := by
  unfold accountWarningApplied
  cases getAccountWarning s <;> rfl

theorem registerAccount_of_available (s : DevState) (h : s.available = true) :
    registerAccount s =
      { s with
        registered := true
        registerAttempts := s.registerAttempts + 1
        networkCalls := s.networkCalls + 1 } := by
  simp [registerAccount, h]

theorem syncAccount_shape (env : Env) (s : DevState) :
    ∃ r w a c, syncAccount env s =
      { s with registered := r, warning := w, registerAttempts := a, networkCalls := c } := by
  obtain ⟨reg, avail, acc, fw, ast, cont, caps, cset, sett, warn, umsg, ra, nc⟩ := s
  unfold syncAccount
  cases reg with
  | true => exact ⟨true, warn, ra, nc, by simp⟩
  | false =>
    cases avail with
    | false => exact ⟨false, warn, ra, nc, by simp⟩
    | true =>
      cases acc with
      | none => exact ⟨false, warn, ra, nc, by simp⟩
      | some n =>
        by_cases h0 : n = 0
        · exact ⟨false, warn, ra, nc, by simp [h0]⟩
        · by_cases h4 : n < 4
          · simp only [h0, h4, if_true, if_false, ite_true, ite_false, if_pos, if_neg,
              Bool.false_eq_true, not_false_eq_true, registerAccount, Bool.not_true,
              decide_True, decide_False]
            rw [accountWarningApplied_eq]
            exact ⟨_, _, _, _, rfl⟩
          · simp only [h0, h4, if_true, if_false, ite_true, ite_false,
              Bool.false_eq_true, not_false_eq_true, Bool.not_true,
              decide_True, decide_False]
            rw [accountWarningApplied_eq]
            exact ⟨_, _, _, _, rfl⟩

theorem settingsApplied_eq (s : DevState) (wFirm mFirm : Option String) :
    settingsApplied s wFirm mFirm =
      { s with settings := (settingsApplied s wFirm mFirm).settings } := by
  unfold settingsApplied
  split <;> rfl

theorem syncSettingsStep_shape (env : Env) (s : DevState) :
    (∃ st w, syncSettingsStep env s = .ok { s with settings := st, warning := w }) ∨
    syncSettingsStep env s = .error (cannotReadFirmVer, s) := by
  obtain ⟨reg, avail, acc, fw, ast, cont, caps, cset, sett, warn, umsg, ra, nc⟩ := s
  unfold syncSettingsStep
  cases cont with
  | none => exact .inl ⟨sett, warn, rfl⟩
  | some c =>
    obtain ⟨cw, cm, cna, cft⟩ := c
    cases cw with
    | none => exact .inr rfl
    | some wFirm =>
      cases cm with
      | none => exact .inr rfl
      | some mFirm =>
        by_cases hfw : firmwareHasWarning fw = true
        · simp only [hfw, if_true, ite_true]
          rw [settingsApplied_eq]
          exact .inl ⟨_, _, rfl⟩
        · simp only [hfw, if_false, ite_false]
          rw [settingsApplied_eq]
          exact .inl ⟨_, _, rfl⟩

theorem syncAirconStatWith_not_blank (p : Payload) (s : DevState) (h : p.isBlank = false) :
    syncAirconStatWith p s =
      { s with
        available := true
        unavailableMsg := none
        airconStat := p.airconStat
        contents := some p.contentsOf
        accounts := p.numOfAccount
        firmware := p.firmType } := by
  simp [syncAirconStatWith, h]

theorem syncAirconStatWith_blank (p : Payload) (s : DevState) (h : p.isBlank = true) :
    syncAirconStatWith p s = s := by
  simp [syncAirconStatWith, h]

theorem syncSettingsStep_of_present (env : Env) (s : DevState)
    (wF mF : Option String) (cna : Option Int) (cft : Option String)
    (hc : s.contents = some ⟨some wF, some mF, cna, cft⟩) :
    syncSettingsStep env s =
      if firmwareHasWarning s.firmware then
        .ok { settingsApplied s wF mF with
              warning := some (env.locFirmware (s.firmware.getD "")) }
      else
        .ok { settingsApplied s wF mF with warning := none } := by
  unfold syncSettingsStep
  rw [hc]

theorem syncSettingsStep_err_wireless (env : Env) (s : DevState)
    (cm : Option (Option String)) (cna : Option Int) (cft : Option String)
    (hc : s.contents = some ⟨none, cm, cna, cft⟩) :
    syncSettingsStep env s = .error (cannotReadFirmVer, s) := by
  unfold syncSettingsStep
  rw [hc]

theorem syncSettingsStep_err_mcu (env : Env) (s : DevState) (wF : Option String)
    (cna : Option Int) (cft : Option String)
    (hc : s.contents = some ⟨some wF, none, cna, cft⟩) :
    syncSettingsStep env s = .error (cannotReadFirmVer, s) := by
  unfold syncSettingsStep
  rw [hc]

theorem getAccountWarning_of_registered (s : DevState) (h : s.registered = true) :
    getAccountWarning s = none := by
  simp [getAccountWarning, h]

theorem getAccountWarning_overflow (s : DevState) (n : Int) (hreg : s.registered = false)
    (hacc : s.accounts = some n) (h3 : n > 3) :
    getAccountWarning s = some "warning.accounts" := by
  have hn0 : ¬ n = 0 := by omega
  simp [getAccountWarning, hreg, hacc, hn0, h3]

theorem getAccountWarning_low (s : DevState) (n : Int) (hreg : s.registered = false)
    (hacc : s.accounts = some n) (hn0 : n ≠ 0) (h3 : ¬ n > 3) :
    getAccountWarning s = some "warning.unregistered" := by
  simp [getAccountWarning, hreg, hacc, hn0, h3]

theorem syncAccount_of_registered (env : Env) (s : DevState) (h : s.registered = true) :
    syncAccount env s = s := by
  simp [syncAccount, h]

theorem syncAccount_run (env : Env) (s : DevState) (n : Int) (hreg : s.registered = false)
    (hav : s.available = true) (hacc : s.accounts = some n) (hn0 : n ≠ 0) :
    syncAccount env s = accountWarningApplied env (if n < 4 then registerAccount s else s) := by
  simp [syncAccount, hreg, hav, hacc, hn0]

theorem sync_of_ok (env : Env) (p : Payload) (s s3 : DevState)
    (h : syncSettingsStep env (syncCapabilities env (syncAirconStatWith p s)) = .ok s3) :
    sync env p s = syncAccount env s3 := by
  unfold sync syncTry
  rw [h]

theorem sync_of_error (env : Env) (p : Payload) (s s1 : DevState) (e : String)
    (h : syncSettingsStep env (syncCapabilities env (syncAirconStatWith p s)) =
      .error (e, s1)) :
    sync env p s = { s1 with available := false, unavailableMsg := some (env.loc e) } := by
  unfold sync syncTry
  rw [h]

theorem syncCapabilities_some (env : Env) (s : DevState) (stat : JObj)
    (h : s.airconStat = some stat) :
    syncCapabilities env s = (capabilityTable env).foldl (applyCapEntry stat) s := by
  unfold syncCapabilities
  rw [h]

theorem sync_pipeline (env : Env) (p : Payload) (s : DevState) (wF mF : Option String)
    (hnb : p.isBlank = false) (hw : p.wireless = some wF) (hm : p.mcu = some mF) :
    sync env p s = syncAccount env
      (if firmwareHasWarning p.firmType then
        { settingsApplied (syncCapabilities env (syncAirconStatWith p s)) wF mF with
          warning := some (env.locFirmware (p.firmType.getD "")) }
       else
        { settingsApplied (syncCapabilities env (syncAirconStatWith p s)) wF mF with
          warning := none }) := by
  have h1 := syncAirconStatWith_not_blank p s hnb
  obtain ⟨caps, h2⟩ := syncCapabilities_shape env (syncAirconStatWith p s)
  have hcont : (syncCapabilities env (syncAirconStatWith p s)).contents
      = some ⟨some wF, some mF, p.numOfAccount, p.firmType⟩ := by
    rw [h2, h1]
    simp [Payload.contentsOf, hw, hm]
  have hfw : (syncCapabilities env (syncAirconStatWith p s)).firmware = p.firmType := by
    rw [h2, h1]
  have hset := syncSettingsStep_of_present env _ wF mF p.numOfAccount p.firmType hcont
  rw [hfw] at hset
  by_cases hf : firmwareHasWarning p.firmType = true
  · rw [if_pos hf] at hset
    rw [sync_of_ok env p s _ hset, if_pos hf]
  · rw [if_neg hf] at hset
    rw [sync_of_ok env p s _ hset, if_neg hf]

theorem applyCapEntry_absent (stat : JObj) (s : DevState) (e : CapEntry)
    (h : getKey e.field stat = none) : applyCapEntry stat s e = s := by
  unfold applyCapEntry
  rw [h]

theorem applyCapEntry_present (stat : JObj) (s : DevState) (e : CapEntry) (v : JVal)
    (hv : getKey e.field stat = some v) (hc : s.capSet.contains e.guardCap = true) :
    applyCapEntry stat s e =
      { s with capabilities := setKey e.targetCap (e.mapVal v) s.capabilities } := by
  unfold applyCapEntry
  rw [hv, hc]
  rfl

theorem accountWarningApplied_of_none (env : Env) (s : DevState)
    (h : getAccountWarning s = none) :
    accountWarningApplied env s = { s with warning := none } := by
  unfold accountWarningApplied
  rw [h]

theorem accountWarningApplied_of_some (env : Env) (s : DevState) (w : String)
    (h : getAccountWarning s = some w) :
    accountWarningApplied env s = { s with warning := some (env.loc w) } := by
  unfold accountWarningApplied
  rw [h]

theorem syncAccount_attempts_warning (env : Env) (s3 : DevState) (n : Int)
    (hreg : s3.registered = false) (hav : s3.available = true) (hacc : s3.accounts = some n) :
    (n > 3 → (syncAccount env s3).registerAttempts = s3.registerAttempts ∧
      (syncAccount env s3).warning = some (env.loc "warning.accounts")) ∧
    (1 ≤ n ∧ n ≤ 3 → (syncAccount env s3).registerAttempts = s3.registerAttempts + 1 ∧
      (syncAccount env s3).warning = none) := by
  constructor
  · intro h3
    have hn0 : n ≠ 0 := by omega
    rw [syncAccount_run env s3 n hreg hav hacc hn0]
    rw [if_neg (by omega : ¬ n < 4)]
    rw [accountWarningApplied_of_some env s3 _ (getAccountWarning_overflow s3 n hreg hacc h3)]
    exact ⟨rfl, rfl⟩
  · rintro ⟨h1, h3⟩
    have hn0 : n ≠ 0 := by omega
    rw [syncAccount_run env s3 n hreg hav hacc hn0]
    rw [if_pos (by omega : n < 4)]
    rw [registerAccount_of_available s3 hav]
    rw [accountWarningApplied_of_none env _ (getAccountWarning_of_registered _ rfl)]
    exact ⟨rfl, rfl⟩

theorem syncCapabilities_contents (env : Env) (p : Payload) (s : DevState)
    (wF mF : Option String) (hnb : p.isBlank = false)
    (hw : p.wireless = some wF) (hm : p.mcu = some mF) :
    (syncCapabilities env (syncAirconStatWith p s)).contents
      = some ⟨some wF, some mF, p.numOfAccount, p.firmType⟩ := by
  obtain ⟨caps, h2⟩ := syncCapabilities_shape env (syncAirconStatWith p s)
  rw [h2, syncAirconStatWith_not_blank p s hnb]
  simp [Payload.contentsOf, hw, hm]

theorem syncCapabilities_firmware (env : Env) (p : Payload) (s : DevState)
    (hnb : p.isBlank = false) :
    (syncCapabilities env (syncAirconStatWith p s)).firmware = p.firmType := by
  obtain ⟨caps, h2⟩ := syncCapabilities_shape env (syncAirconStatWith p s)
  rw [h2, syncAirconStatWith_not_blank p s hnb]

theorem getKey_mergePatch_single (stat : JObj) (k : String) (v : JVal) :
    getKey k (mergePatch stat [(k, v)]) = some v := by
  unfold mergePatch
  simp only [List.foldl_cons, List.foldl_nil]
  exact getKey_setKey_self k v stat

theorem syncAirconStatWith_registerAttempts (p : Payload) (s : DevState) :
    (syncAirconStatWith p s).registerAttempts = s.registerAttempts := by
  unfold syncAirconStatWith
  split <;> rfl

theorem getKey_applyCapEntry (stat : JObj) (s : DevState) (e : CapEntry) (c : String)
    (h : e.targetCap ≠ c ∨ getKey e.field stat = none) :
    getKey c (applyCapEntry stat s e).capabilities = getKey c s.capabilities := by
  rcases h with h | h
  · unfold applyCapEntry
    cases hg : getKey e.field stat with
    | none => rfl
    | some v =>
      cases hc : s.capSet.contains e.guardCap with
      | false => simp [hc]
      | true =>
        simp only [hc, if_true]
        exact getKey_setKey_ne c e.targetCap (e.mapVal v) s.capabilities h
  · rw [applyCapEntry_absent stat s e h]

theorem getKey_foldl_capEntries (stat : JObj) (c : String) (es : List CapEntry)
    (s : DevState) (H : ∀ e ∈ es, e.targetCap = c → getKey e.field stat = none) :
    getKey c (es.foldl (applyCapEntry stat) s).capabilities = getKey c s.capabilities := by
  induction es generalizing s with
  | nil => rfl
  | cons e es ih =>
    rw [List.foldl_cons]
    rw [ih (applyCapEntry stat s e) (fun e' he' => H e' (List.mem_cons_of_mem _ he'))]
    apply getKey_applyCapEntry
    by_cases ht : e.targetCap = c
    · exact .inr (H e (List.mem_cons_self _ _) ht)
    · exact .inl ht

theorem getKey_syncCapabilities (env : Env) (s : DevState) (stat : JObj) (c : String)
    (hstat : s.airconStat = some stat)
    (H : ∀ e ∈ capabilityTable env, e.targetCap = c → getKey e.field stat = none) :
    getKey c (syncCapabilities env s).capabilities = getKey c s.capabilities := by
  rw [syncCapabilities_some env s stat hstat]
  exact getKey_foldl_capEntries stat c (capabilityTable env) s H

theorem mem_setKey (k : String) (v : α) (l : List (String × α)) (kv : String × α)
    (h : kv ∈ setKey k v l) : kv.1 = k ∨ kv ∈ l := by
  induction l with
  | nil =>
    simp [setKey] at h
    exact .inl (by rw [h])
  | cons hd tl ih =>
    obtain ⟨k₀, v₀⟩ := hd
    by_cases h0 : k₀ = k
    · simp [setKey, h0] at h
      rcases h with h | h
      · exact .inl (by rw [h])
      · exact .inr (List.mem_cons_of_mem _ h)
    · simp only [setKey, h0, if_false, List.mem_cons] at h
      rcases h with h | h
      · exact .inr (by simp [h])
      · rcases ih h with h' | h'
        · exact .inl h'
        · exact .inr (List.mem_cons_of_mem _ h')

theorem mem_ite_setKey (c : Prop) [Decidable c] (k : String) (v : α)
    (l : List (String × α)) (kv : String × α)
    (h : kv ∈ (if c then setKey k v l else l)) : (c ∧ kv.1 = k) ∨ kv ∈ l := by
  split at h
  · rcases mem_setKey k v l kv h with h' | h'
    · exact .inl ⟨by assumption, h'⟩
    · exact .inr h'
  · exact .inr h

theorem stagedSettings_mem (s : DevState) (wF mF : Option String) (kv : String × String)
    (h : kv ∈ stagedSettings s wF mF) :
    kv.1 = "mcu_firmware" ∨ kv.1 = "wifi_firmware" ∨
    (kv.1 = "firmware_type" ∧ filledStr s.firmware = true) ∨
    (kv.1 = "accounts" ∧ accountsTruthy s.accounts = true) := by
  unfold stagedSettings at h
  rcases mem_ite_setKey _ _ _ _ _ h with ⟨_, h1⟩ | h
  · exact .inl h1
  rcases mem_ite_setKey _ _ _ _ _ h with ⟨_, h1⟩ | h
  · exact .inr (.inl h1)
  rcases mem_ite_setKey _ _ _ _ _ h with ⟨hc, h1⟩ | h
  · exact .inr (.inr (.inl ⟨h1, by assumption⟩))
  rcases mem_ite_setKey _ _ _ _ _ h with ⟨hc, h1⟩ | h
  · exact .inr (.inr (.inr ⟨h1, by assumption⟩))
  · simp at h

theorem getKey_mergeSettings (base patch : List (String × String)) (k : String)
    (h : ∀ kv ∈ patch, kv.1 ≠ k) : getKey k (mergeSettings base patch) = getKey k base := by
  unfold mergeSettings
  induction patch generalizing base with
  | nil => rfl
  | cons kv patch ih =>
    rw [List.foldl_cons]
    rw [ih (setKey kv.1 kv.2 base) (fun kv' h' => h kv' (List.mem_cons_of_mem _ h'))]
    exact getKey_setKey_ne k kv.1 kv.2 base (h kv (List.mem_cons_self _ _))

theorem getKey_settingsApplied (s : DevState) (wF mF : Option String) (k : String)
    (h : ∀ kv ∈ stagedSettings s wF mF, kv.1 ≠ k) :
    getKey k (settingsApplied s wF mF).settings = getKey k s.settings := by
  unfold settingsApplied
  split
  · rfl
  · exact getKey_mergeSettings s.settings (stagedSettings s wF mF) k h

theorem boolCasesEq (b : Bool) : b = false ∨ b = true := by
  cases b
  · exact .inl rfl
  · exact .inr rfl

theorem optCasesEq (o : Option α) : o = none ∨ ∃ a, o = some a := by
  cases o
  · exact .inl rfl
  · exact .inr ⟨_, rfl⟩

theorem syncSettingsStep_settings_key (env : Env) (s : DevState) (k : String)
    (hk : ∀ wF mF kv, kv ∈ stagedSettings s wF mF → kv.1 ≠ k) :
    getKey k (stepState (syncSettingsStep env s)).settings = getKey k s.settings := by
  rcases optCasesEq s.contents with hc | ⟨c, hc⟩
  · have hok : syncSettingsStep env s = .ok s := by
      unfold syncSettingsStep
      rw [hc]
    rw [hok]
    rfl
  · obtain ⟨cw, cm, cna, cft⟩ := c
    cases cw with
    | none =>
      rw [syncSettingsStep_err_wireless env s cm cna cft hc]
      rfl
    | some wF =>
      cases cm with
      | none =>
        rw [syncSettingsStep_err_mcu env s wF cna cft hc]
        rfl
      | some mF =>
        rw [syncSettingsStep_of_present env s wF mF cna cft hc]
        by_cases hfw : firmwareHasWarning s.firmware = true
        · rw [if_pos hfw]
          simp only [stepState]
          exact getKey_settingsApplied s wF mF k (hk wF mF)
        · rw [if_neg hfw]
          simp only [stepState]
          exact getKey_settingsApplied s wF mF k (hk wF mF)

theorem sync_airconStat_not_blank (env : Env) (p : Payload) (s : DevState)
    (h : p.isBlank = false) : (sync env p s).airconStat = p.airconStat := by
  unfold sync syncTry
  rcases syncSettingsStep_shape env (syncCapabilities env (syncAirconStatWith p s)) with
    ⟨st, w, hok⟩ | herr
  · rw [hok]
    simp only
    obtain ⟨r, w', a, c, hsa⟩ := syncAccount_shape env
      ({ syncCapabilities env (syncAirconStatWith p s) with settings := st, warning := w })
    rw [hsa]
    simp only
    obtain ⟨caps, h2⟩ := syncCapabilities_shape env (syncAirconStatWith p s)
    rw [h2]
    simp only
    rw [syncAirconStatWith_not_blank p s h]
  · rw [herr]
    simp only
    obtain ⟨caps, h2⟩ := syncCapabilities_shape env (syncAirconStatWith p s)
    rw [h2]
    simp only
    rw [syncAirconStatWith_not_blank p s h]

/-!  Claim theorems. -/

/-- C1 (counterexample): for the spec's exact scenario payload (which has
no `wireless`/`mcu` objects), synced on an available, unregistered
device, account registration is NOT attempted (the cycle aborts in the
settings step and the device ends up unavailable), refuting the scenario
as stated. -/
theorem scenario_payload_sync_aborts :
    s0.registered = false ∧ s0.available = true ∧
    (sync env0 scenarioPayload s0).registerAttempts = 0 ∧
    (sync env0 scenarioPayload s0).available = false := by
  refine ⟨?_, ?_, ?_, ?_⟩ <;> rfl

/-- C1 (amended): for the scenario payload completed with the `wireless` and
`mcu` objects a real device reports, synced on an available, unregistered
device that has the on/off and fan-speed capabilities: afterwards the
on/off capability is true, the fan-speed capability is the mapped value
for code 2, registration was attempted exactly once, and no warning is
set. -/
theorem scenario_with_modules_sync_succeeds (env : Env) (s : DevState)
    (hreg : s.registered = false) (hav : s.available = true)
    (hon : "onoff" ∈ s.capSet) (hfan : "fan_speed" ∈ s.capSet) :
    getKey "onoff" (sync env scenarioPayloadFull s).capabilities = some (.vBool true) ∧
    getKey "fan_speed" (sync env scenarioPayloadFull s).capabilities
      = some (env.airFlow (.vNum 2)) ∧
    (sync env scenarioPayloadFull s).registerAttempts = s.registerAttempts + 1 ∧
    (sync env scenarioPayloadFull s).warning = none := by
  have h1 := syncAirconStatWith_not_blank scenarioPayloadFull s rfl
  have hstat : (syncAirconStatWith scenarioPayloadFull s).airconStat
      = some [("operation", .vBool true), ("airFlow", .vNum 2)] := by
    rw [h1]
    rfl
  have hcaps : (syncCapabilities env (syncAirconStatWith scenarioPayloadFull s)).capabilities
      = setKey "onoff" (.vBool true) (setKey "fan_speed" (env.airFlow (.vNum 2)) s.capabilities) := by
    rw [syncCapabilities_some env _ _ hstat, capabilityTable]
    simp only [List.foldl_cons, List.foldl_nil]
    simp [applyCapEntry, getKey, hon, hfan, h1]
  rw [sync_pipeline env scenarioPayloadFull s (some "1.0") (some "2.0") rfl rfl rfl]
  rw [if_neg (by decide : ¬ (firmwareHasWarning scenarioPayloadFull.firmType = true))]
  obtain ⟨caps2, h2⟩ := syncCapabilities_shape env (syncAirconStatWith scenarioPayloadFull s)
  rw [h2] at hcaps
  dsimp only at hcaps
  rw [h2, h1]
  rw [settingsApplied_eq]
  rw [syncAccount_run env _ 1 (by exact hreg) rfl rfl (by decide)]
  rw [if_pos (by decide : (1:Int) < 4)]
  rw [registerAccount_of_available _ rfl]
  rw [accountWarningApplied_of_none env _ (getAccountWarning_of_registered _ rfl)]
  refine ⟨?_, ?_, ?_, ?_⟩
  · dsimp only
    rw [hcaps, getKey_setKey_self]
  · dsimp only
    rw [hcaps, getKey_setKey_ne _ _ _ _ (by decide), getKey_setKey_self]
  · rfl
  · rfl

/-- Witness for C1 (amended) at the concrete environment and base state. -/
theorem scenario_with_modules_sync_succeeds_witness :
    getKey "onoff" (sync env0 scenarioPayloadFull s0).capabilities
      = some (JVal.vBool true) ∧
    getKey "fan_speed" (sync env0 scenarioPayloadFull s0).capabilities
      = some (env0.airFlow (JVal.vNum 2)) ∧
    (sync env0 scenarioPayloadFull s0).registerAttempts = s0.registerAttempts + 1 ∧
    (sync env0 scenarioPayloadFull s0).warning = none :=
  scenario_with_modules_sync_succeeds env0 s0 rfl rfl (by decide) (by decide)

/-- C2 (counterexample): on an unregistered available device with one
account, a payload whose firmware identifier "XX" is not canonical makes
the settings step raise the firmware warning, yet after the full sync
cycle the warning is cleared (by the account step of the same cycle) —
refuting the claim that no step of that cycle clears the warning. -/
theorem firmware_warning_cleared_same_cycle :
    firmwareHasWarning pBadFirmware.firmType = true ∧
    (stepState (syncSettingsStep env0
      (syncCapabilities env0 (syncAirconStatWith pBadFirmware s0)))).warning
      = some "unsupported firmware XX" ∧
    (sync env0 pBadFirmware s0).warning = none ∧ s0.warning = none := by
  refine ⟨?_, ?_, ?_, ?_⟩ <;> rfl

/-- C2 (amended): if the payload's firmware identifier is present,
non-empty and not the canonical value, the settings step raises the
firmware warning and does not itself clear it; and when the device is
already registered, the firmware warning survives the whole sync cycle. -/
theorem firmware_warning_raised_not_cleared_by_settings (env : Env) (p : Payload) (s : DevState) (wF mF : Option String) (f : String)
    (hnb : p.isBlank = false) (hw : p.wireless = some wF) (hm : p.mcu = some mF)
    (hft : p.firmType = some f) (hne : f ≠ "WF-RAC") (hnem : f ≠ "") :
    (stepState (syncSettingsStep env (syncCapabilities env (syncAirconStatWith p s)))).warning
      = some (env.locFirmware f) ∧
    (s.registered = true → (sync env p s).warning = some (env.locFirmware f)) := by
  have hie : f.isEmpty = false := by
    cases hie : f.isEmpty
    · rfl
    · exact absurd ((String.isEmpty_iff f).mp hie) hnem
  have hfwv : firmwareHasWarning p.firmType = true := by
    rw [hft]
    simp [firmwareHasWarning, firmwareTruthy, hne, hie]
  have hcont := syncCapabilities_contents env p s wF mF hnb hw hm
  have hfw := syncCapabilities_firmware env p s hnb
  have hset := syncSettingsStep_of_present env _ wF mF p.numOfAccount p.firmType hcont
  rw [hfw, if_pos hfwv] at hset
  rw [hft] at hset
  simp only [Option.getD_some] at hset
  constructor
  · rw [hset]
    simp only [stepState]
  · intro hr
    have hreg3 : ({ settingsApplied (syncCapabilities env (syncAirconStatWith p s)) wF mF with
        warning := some (env.locFirmware f) } : DevState).registered = true := by
      rw [settingsApplied_eq]
      obtain ⟨caps, h2⟩ := syncCapabilities_shape env (syncAirconStatWith p s)
      rw [h2, syncAirconStatWith_not_blank p s hnb]
      exact hr
    rw [sync_of_ok env p s _ hset, syncAccount_of_registered env _ hreg3]

/-- Witness for C2 (amended) at the concrete bad-firmware payload on a
registered device. -/
theorem firmware_warning_raised_not_cleared_by_settings_witness :
    (stepState (syncSettingsStep env0
      (syncCapabilities env0 (syncAirconStatWith pBadFirmware sReg)))).warning
      = some (env0.locFirmware "XX") ∧
    (sync env0 pBadFirmware sReg).warning = some (env0.locFirmware "XX") := by
  have H := firmware_warning_raised_not_cleared_by_settings env0 pBadFirmware sReg
    (some "1.0") (some "2.0") "XX" rfl rfl rfl rfl (by decide) (by decide)
  exact ⟨H.1, H.2 rfl⟩

/-- C3: `updateDevice` (applyPatch) validates its preconditions before any
network call: with the device unavailable it returns immediately with the
state untouched (so no network call is made and nothing is sent); with
the device available but unregistered it fails, before any network call,
with the localization of exactly the message `getAccountWarning` would
produce. -/
theorem updateDevice_precondition_failures (env : Env) (fetched resp : Payload) (props : JObj) (s : DevState) :
    (s.available = false → updateDevice env fetched resp props s = ⟨s, .notAvailable, none⟩) ∧
    (s.available = true → s.registered = false → ∀ w, getAccountWarning s = some w →
      updateDevice env fetched resp props s = ⟨s, .failed (env.loc w), none⟩) := by
  constructor
  · intro h
    unfold updateDevice
    rw [h]
    rfl
  · intro hav hreg w hw
    unfold updateDevice
    rw [hav, hreg, hw]
    rfl

/-- Witness for C3: an unavailable device and an available unregistered
device with a known account count. -/
theorem updateDevice_precondition_failures_witness :
    updateDevice env0 pFetch pBlank [("presetTemp", JVal.vNum 24)] sUnavail
      = ⟨sUnavail, .notAvailable, none⟩ ∧
    updateDevice env0 pFetch pBlank [("presetTemp", JVal.vNum 24)] sUnreg
      = ⟨sUnreg, .failed (env0.loc "warning.unregistered"), none⟩ := by
  constructor
  · exact (updateDevice_precondition_failures env0 pFetch pBlank _ sUnavail).1 rfl
  · exact (updateDevice_precondition_failures env0 pFetch pBlank _ sUnreg).2 rfl rfl
      "warning.unregistered" rfl

/-- C4 (counterexample): the claim quantifies over every sync cycle with
the device unregistered, but on payloads lacking the `wireless` / `mcu`
objects the cycle aborts in the settings step before the account step:
with five accounts reported, no warning at all is set (in particular not
the too-many-accounts warning), and with one account reported,
registration is attempted zero times rather than exactly once. -/
theorem registration_policy_fails_without_modules :
    s0.registered = false ∧ s0.available = true ∧
    (sync env0 pFiveNoModules s0).warning = none ∧
    ¬ (sync env0 pFiveNoModules s0).warning = some (env0.loc "warning.accounts") ∧
    (sync env0 pOneNoModules s0).registerAttempts = s0.registerAttempts := by
  refine ⟨?_, ?_, ?_, ?_, ?_⟩
  · rfl
  · rfl
  · rfl
  · intro h
    exact Option.noConfusion h
  · rfl

/-- C4 (amended): in a sync cycle over a non-blank payload carrying the
`wireless` and `mcu` objects (so the cycle reaches the account step) and
an account count `n`, with the device unregistered: if `n > 3`,
registration is never attempted and the warning set is the
too-many-accounts warning; if `n` is in [1,3], registration is attempted
exactly once in that cycle. -/
theorem sync_registration_policy (env : Env) (p : Payload) (s : DevState) (n : Int) (wF mF : Option String)
    (hreg : s.registered = false) (hnb : p.isBlank = false)
    (hw : p.wireless = some wF) (hm : p.mcu = some mF)
    (hacc : p.numOfAccount = some n) :
    (n > 3 → (sync env p s).registerAttempts = s.registerAttempts ∧
      (sync env p s).warning = some (env.loc "warning.accounts")) ∧
    (1 ≤ n ∧ n ≤ 3 → (sync env p s).registerAttempts = s.registerAttempts + 1) := by
  rw [sync_pipeline env p s wF mF hnb hw hm]
  have h1 := syncAirconStatWith_not_blank p s hnb
  obtain ⟨caps2, h2⟩ := syncCapabilities_shape env (syncAirconStatWith p s)
  rw [h2, h1, settingsApplied_eq]
  by_cases hf : firmwareHasWarning p.firmType = true
  · rw [if_pos hf]
    refine ⟨fun h3 => (syncAccount_attempts_warning env _ n ?_ ?_ ?_).1 h3,
            fun h13 => ((syncAccount_attempts_warning env _ n ?_ ?_ ?_).2 h13).1⟩
    · exact hreg
    · rfl
    · exact hacc
    · exact hreg
    · rfl
    · exact hacc
  · rw [if_neg hf]
    refine ⟨fun h3 => (syncAccount_attempts_warning env _ n ?_ ?_ ?_).1 h3,
            fun h13 => ((syncAccount_attempts_warning env _ n ?_ ?_ ?_).2 h13).1⟩
    · exact hreg
    · rfl
    · exact hacc
    · exact hreg
    · rfl
    · exact hacc

/-- Witness for C4: five accounts block registration and set the
too-many-accounts warning; one account registers exactly once. -/
theorem sync_registration_policy_witness :
    ((sync env0 pFiveAccounts s0).registerAttempts = s0.registerAttempts ∧
      (sync env0 pFiveAccounts s0).warning = some (env0.loc "warning.accounts")) ∧
    (sync env0 scenarioPayloadFull s0).registerAttempts = s0.registerAttempts + 1 := by
  constructor
  · exact (sync_registration_policy env0 pFiveAccounts s0 5 (some "1.0") (some "2.0")
      rfl rfl rfl rfl rfl).1 (by decide)
  · exact (sync_registration_policy env0 scenarioPayloadFull s0 1 (some "1.0") (some "2.0")
      rfl rfl rfl rfl rfl).2 (by decide)

/-- C5: whenever `updateDevice` sends a merged state for the single-key
patch `{k: v}`, that merged state maps `k` to `v`, regardless of the
value the freshly fetched control state held for `k`. -/
theorem updateDevice_patch_precedence (env : Env) (fetched resp : Payload) (s : DevState) (k : String) (v : JVal)
    (sent : JObj) (h : (updateDevice env fetched resp [(k, v)] s).sent = some sent) :
    getKey k sent = some v := by
  unfold updateDevice at h
  cases hav : s.available with
  | false =>
    rw [hav] at h
    simp at h
  | true =>
    rw [hav] at h
    cases hreg : s.registered with
    | false =>
      rw [hreg] at h
      simp at h
    | true =>
      rw [hreg] at h
      unfold updateSend at h
      cases hast : (syncAirconStatFetch fetched s).airconStat with
      | none =>
        rw [hast] at h
        simp at h
      | some stat =>
        rw [hast] at h
        simp only at h
        have hs : sent = mergePatch stat [(k, v)] := by
          injection h with h'
          exact h'.symm
        rw [hs]
        exact getKey_mergePatch_single stat k v

/-- Witness for C5 at a concrete fetched state and patch. -/
theorem updateDevice_patch_precedence_witness :
    getKey "presetTemp" [("presetTemp", JVal.vNum 24), ("operation", JVal.vBool true)]
      = some (JVal.vNum 24) :=
  updateDevice_patch_precedence env0 pFetch pBlank sReg "presetTemp" (JVal.vNum 24)
    [("presetTemp", JVal.vNum 24), ("operation", JVal.vBool true)] rfl

/-- C6: any exception thrown during the steps of a sync cycle is caught
once at the top level of `sync` (which is a total function — the
exception does not propagate): the device is set unavailable with the
localized message, and the remaining steps of the cycle are skipped — in
particular the account step never runs, so the registration-attempt count
is unchanged. -/
theorem sync_error_caught_top_level (env : Env) (p : Payload) (s : DevState) (e : String) (s1 : DevState)
    (h : syncTry env p s = .error (e, s1)) :
    sync env p s = { s1 with available := false, unavailableMsg := some (env.loc e) } ∧
    s1.registerAttempts = s.registerAttempts := by
  constructor
  · unfold sync
    rw [h]
  · unfold syncTry at h
    rcases syncSettingsStep_shape env (syncCapabilities env (syncAirconStatWith p s)) with
      ⟨st, w, hok⟩ | herr
    · rw [hok] at h
      simp at h
    · rw [herr] at h
      simp only [Except.error.injEq, Prod.mk.injEq] at h
      obtain ⟨he, hs1⟩ := h
      rw [← hs1]
      obtain ⟨caps, h2⟩ := syncCapabilities_shape env (syncAirconStatWith p s)
      rw [h2]
      exact syncAirconStatWith_registerAttempts p s

/-- Witness for C6 at the scenario payload whose settings step throws. -/
theorem sync_error_caught_top_level_witness :
    sync env0 scenarioPayload s0 =
      { stepState (syncTry env0 scenarioPayload s0) with
        available := false
        unavailableMsg := some (env0.loc cannotReadFirmVer) } ∧
    (stepState (syncTry env0 scenarioPayload s0)).registerAttempts
      = s0.registerAttempts :=
  sync_error_caught_top_level env0 scenarioPayload s0 cannotReadFirmVer
    (stepState (syncTry env0 scenarioPayload s0)) rfl

/-- C7: partial-update semantics — for every control block in which a
mapped field is absent, the corresponding capability is left unchanged by
the capability step, and for absent firmware / account metadata the
corresponding setting is left unchanged by the settings step (never reset
to empty or a default). -/
theorem sync_absent_fields_frame (env : Env) (s : DevState) (stat : JObj) (hstat : s.airconStat = some stat) :
    (getKey "entrust" stat = none →
      getKey "3d_auto" (syncCapabilities env s).capabilities
        = getKey "3d_auto" s.capabilities) ∧
    (getKey "airFlow" stat = none →
      getKey "fan_speed" (syncCapabilities env s).capabilities
        = getKey "fan_speed" s.capabilities) ∧
    (getKey "windDirectionLR" stat = none →
      getKey "horizontal_position" (syncCapabilities env s).capabilities
        = getKey "horizontal_position" s.capabilities) ∧
    (getKey "indoorTemp" stat = none →
      getKey "measure_temperature" (syncCapabilities env s).capabilities
        = getKey "measure_temperature" s.capabilities) ∧
    (getKey "operation" stat = none →
      getKey "onoff" (syncCapabilities env s).capabilities
        = getKey "onoff" s.capabilities) ∧
    (getKey "operationMode" stat = none →
      getKey "operating_mode" (syncCapabilities env s).capabilities
        = getKey "operating_mode" s.capabilities) ∧
    (getKey "outdoorTemp" stat = none →
      getKey "measure_temperature.outdoor" (syncCapabilities env s).capabilities
        = getKey "measure_temperature.outdoor" s.capabilities) ∧
    (getKey "presetTemp" stat = none →
      getKey "target_temperature" (syncCapabilities env s).capabilities
        = getKey "target_temperature" s.capabilities) ∧
    (getKey "windDirectionUD" stat = none →
      getKey "vertical_position" (syncCapabilities env s).capabilities
        = getKey "vertical_position" s.capabilities) ∧
    (s.firmware = none →
      getKey "firmware_type" (stepState (syncSettingsStep env s)).settings
        = getKey "firmware_type" s.settings) ∧
    (s.accounts = none →
      getKey "accounts" (stepState (syncSettingsStep env s)).settings
        = getKey "accounts" s.settings) := by
  refine ⟨?_, ?_, ?_, ?_, ?_, ?_, ?_, ?_, ?_, ?_, ?_⟩
  case refine_10 =>
    intro h
    refine syncSettingsStep_settings_key env s "firmware_type" ?_
    intro wF mF kv hkv
    rcases stagedSettings_mem s wF mF kv hkv with h1 | h1 | ⟨h1, hf⟩ | ⟨h1, _⟩
    · rw [h1]; decide
    · rw [h1]; decide
    · rw [h] at hf
      simp [filledStr] at hf
    · rw [h1]; decide
  case refine_11 =>
    intro h
    refine syncSettingsStep_settings_key env s "accounts" ?_
    intro wF mF kv hkv
    rcases stagedSettings_mem s wF mF kv hkv with h1 | h1 | ⟨h1, _⟩ | ⟨h1, ha⟩
    · rw [h1]; decide
    · rw [h1]; decide
    · rw [h1]; decide
    · rw [h] at ha
      simp [accountsTruthy] at ha
  all_goals
    intro h
    refine getKey_syncCapabilities env s stat _ hstat ?_
    intro e he ht
    simp only [capabilityTable, List.mem_cons, List.not_mem_nil, or_false] at he
    rcases he with rfl | rfl | rfl | rfl | rfl | rfl | rfl | rfl | rfl <;>
      first
        | exact h
        | exact absurd ht (by simp)

/-- Witness for C7 at an empty control block (every field absent) with no
firmware or account metadata. -/
theorem sync_absent_fields_frame_witness :
    getKey "3d_auto" (syncCapabilities env0 sEmptyStat).capabilities
      = getKey "3d_auto" sEmptyStat.capabilities ∧
    getKey "onoff" (syncCapabilities env0 sEmptyStat).capabilities
      = getKey "onoff" sEmptyStat.capabilities ∧
    getKey "firmware_type" (stepState (syncSettingsStep env0 sEmptyStat)).settings
      = getKey "firmware_type" sEmptyStat.settings := by
  have H := sync_absent_fields_frame env0 sEmptyStat [] rfl
  exact ⟨H.1 rfl, H.2.2.2.2.1 rfl, H.2.2.2.2.2.2.2.2.2.1 rfl⟩

/-- C8: every horizontal or vertical vane-position capability change
produces a patch that, besides the vane field, contains `entrust: false`,
and the merged state obtained from any prior control state maps
`entrust` to false. -/
theorem vane_patches_clear_entrust (env : Env) (v w : JVal) (stat : JObj) :
    ("windDirectionLR", env.horizontalPositionNames v) ∈ horizontalPositionPatch env v ∧
    ("entrust", JVal.vBool false) ∈ horizontalPositionPatch env v ∧
    ("windDirectionUD", env.verticalPositionNames w) ∈ verticalPositionPatch env w ∧
    ("entrust", JVal.vBool false) ∈ verticalPositionPatch env w ∧
    getKey "entrust" (mergePatch stat (horizontalPositionPatch env v))
      = some (JVal.vBool false) ∧
    getKey "entrust" (mergePatch stat (verticalPositionPatch env w))
      = some (JVal.vBool false) := by
  refine ⟨?_, ?_, ?_, ?_, ?_, ?_⟩
  · simp [horizontalPositionPatch]
  · simp [horizontalPositionPatch]
  · simp [verticalPositionPatch]
  · simp [verticalPositionPatch]
  · unfold mergePatch horizontalPositionPatch
    simp only [List.foldl_cons, List.foldl_nil]
    exact getKey_setKey_self "entrust" (JVal.vBool false) _
  · unfold mergePatch verticalPositionPatch
    simp only [List.foldl_cons, List.foldl_nil]
    exact getKey_setKey_self "entrust" (JVal.vBool false) _

/-- C9 (counterexample): when the post-send response is blank, the
control state after `updateDevice` is the locally merged state, not a
replacement by the device's post-send response (whose control block is
absent) — refuting the claim that after every send the control state is
immediately replaced by the post-send response. -/
theorem controlState_kept_on_blank_response :
    pBlank.isBlank = true ∧ pBlank.airconStat = none ∧
    (updateDevice env0 pFetch pBlank [("presetTemp", .vNum 24)] sReg).outcome = .ok ∧
    (updateDevice env0 pFetch pBlank [("presetTemp", .vNum 24)] sReg).sent
      = some [("presetTemp", .vNum 24), ("operation", .vBool true)] ∧
    (updateDevice env0 pFetch pBlank [("presetTemp", .vNum 24)] sReg).state.airconStat
      = some [("presetTemp", .vNum 24), ("operation", .vBool true)] := by
  refine ⟨?_, ?_, ?_, ?_, ?_⟩ <;> rfl

/-- C9 (amended): write discipline of the session control state — the
capability, settings and account steps never touch it; the
aircon-stat step replaces it wholesale with the payload's control block
(and only for non-blank payloads); every state `updateDevice` sends is
exactly an explicit caller patch merged into the freshly fetched control
state; and after every completed send whose response is non-blank the
control state is replaced by that response's control block. -/
theorem controlState_write_discipline (env : Env) (p fetched resp : Payload) (props : JObj) (s : DevState) :
    (syncCapabilities env s).airconStat = s.airconStat ∧
    (stepState (syncSettingsStep env s)).airconStat = s.airconStat ∧
    (syncAccount env s).airconStat = s.airconStat ∧
    (syncAirconStatWith p s).airconStat
      = (if p.isBlank then s.airconStat else p.airconStat) ∧
    (∀ st, (updateDevice env fetched resp props s).sent = some st →
      ∃ stat0, (syncAirconStatFetch fetched s).airconStat = some stat0 ∧
        st = mergePatch stat0 props) ∧
    ((updateDevice env fetched resp props s).outcome = .ok → resp.isBlank = false →
      (updateDevice env fetched resp props s).state.airconStat = resp.airconStat) := by
  refine ⟨?_, ?_, ?_, ?_, ?_, ?_⟩
  · obtain ⟨caps, h2⟩ := syncCapabilities_shape env s
    rw [h2]
  · rcases syncSettingsStep_shape env s with ⟨st, w, hok⟩ | herr
    · rw [hok]
      rfl
    · rw [herr]
      rfl
  · obtain ⟨r, w, a, c, hsa⟩ := syncAccount_shape env s
    rw [hsa]
  · unfold syncAirconStatWith
    split <;> rfl
  · intro st h
    unfold updateDevice at h
    cases hav : s.available with
    | false =>
      rw [hav] at h
      simp at h
    | true =>
      rw [hav] at h
      cases hreg : s.registered with
      | false =>
        rw [hreg] at h
        simp at h
      | true =>
        rw [hreg] at h
        unfold updateSend at h
        cases hast : (syncAirconStatFetch fetched s).airconStat with
        | none =>
          rw [hast] at h
          cases props with
          | nil => simp at h
          | cons kv rest => simp at h
        | some stat =>
          rw [hast] at h
          simp only at h
          refine ⟨stat, rfl, ?_⟩
          injection h with h'
          exact h'.symm
  · intro hok hrb
    unfold updateDevice at hok ⊢
    rcases boolCasesEq s.available with hav | hav
    · rw [hav] at hok
      simp at hok
    · rw [hav] at hok ⊢
      rcases boolCasesEq s.registered with hreg | hreg
      · rw [hreg] at hok
        simp at hok
      · rw [hreg] at hok ⊢
        unfold updateSend at hok ⊢
        rcases optCasesEq (syncAirconStatFetch fetched s).airconStat with hast | ⟨stat, hast⟩
        · rw [hast] at hok ⊢
          cases props with
          | nil => exact sync_airconStat_not_blank env resp _ hrb
          | cons kv rest => simp at hok
        · rw [hast] at hok ⊢
          exact sync_airconStat_not_blank env resp _ hrb

/-- Witness for C9 (amended) at concrete states, including a completed
send with a non-blank response. -/
theorem controlState_write_discipline_witness :
    (syncCapabilities env0 sReg).airconStat = sReg.airconStat ∧
    (∃ stat0, (syncAirconStatFetch pFetch sReg).airconStat = some stat0 ∧
      [("presetTemp", JVal.vNum 24), ("operation", JVal.vBool true)]
        = mergePatch stat0 [("presetTemp", JVal.vNum 24)]) ∧
    (updateDevice env0 pFetch pFetch [("presetTemp", JVal.vNum 24)] sReg).state.airconStat
      = pFetch.airconStat := by
  have H := controlState_write_discipline env0 pFetch pFetch pFetch
    [("presetTemp", JVal.vNum 24)] sReg
  exact ⟨H.1, H.2.2.2.2.1 _ rfl, H.2.2.2.2.2 rfl rfl⟩

/-- C10: for every non-blank payload whose metadata lacks a `wireless`
object or an `mcu` object, the settings step throws, so the sync cycle
aborts as an error caught at top level, the device is marked unavailable,
and the account step never runs that cycle (the registration-attempt
count is unchanged). -/
theorem missing_wireless_or_mcu_aborts_sync (env : Env) (p : Payload) (s : DevState) (hnb : p.isBlank = false)
    (hwm : p.wireless = none ∨ p.mcu = none) :
    syncTry env p s =
      .error (cannotReadFirmVer, syncCapabilities env (syncAirconStatWith p s)) ∧
    (sync env p s).available = false ∧
    (sync env p s).registerAttempts = s.registerAttempts := by
  obtain ⟨caps, h2⟩ := syncCapabilities_shape env (syncAirconStatWith p s)
  have h1 := syncAirconStatWith_not_blank p s hnb
  have herr : syncSettingsStep env (syncCapabilities env (syncAirconStatWith p s)) =
      .error (cannotReadFirmVer, syncCapabilities env (syncAirconStatWith p s)) := by
    rcases hwm with hw | hm
    · have hcont : (syncCapabilities env (syncAirconStatWith p s)).contents
          = some ⟨none, p.mcu, p.numOfAccount, p.firmType⟩ := by
        rw [h2, h1]
        simp [Payload.contentsOf, hw]
      exact syncSettingsStep_err_wireless env _ p.mcu p.numOfAccount p.firmType hcont
    · cases hpw : p.wireless with
      | none =>
        have hcont : (syncCapabilities env (syncAirconStatWith p s)).contents
            = some ⟨none, p.mcu, p.numOfAccount, p.firmType⟩ := by
          rw [h2, h1]
          simp [Payload.contentsOf, hpw]
        exact syncSettingsStep_err_wireless env _ p.mcu p.numOfAccount p.firmType hcont
      | some wF =>
        have hcont : (syncCapabilities env (syncAirconStatWith p s)).contents
            = some ⟨some wF, none, p.numOfAccount, p.firmType⟩ := by
          rw [h2, h1]
          simp [Payload.contentsOf, hpw, hm]
        exact syncSettingsStep_err_mcu env _ wF p.numOfAccount p.firmType hcont
  refine ⟨?_, ?_, ?_⟩
  · unfold syncTry
    rw [herr]
  · rw [sync_of_error env p s _ _ herr]
  · rw [sync_of_error env p s _ _ herr]
    show (syncCapabilities env (syncAirconStatWith p s)).registerAttempts = s.registerAttempts
    rw [h2]
    exact syncAirconStatWith_registerAttempts p s

/-- Witness for C10 at the scenario payload, which lacks both objects. -/
theorem missing_wireless_or_mcu_aborts_sync_witness :
    (sync env0 scenarioPayload s0).available = false ∧
    (sync env0 scenarioPayload s0).registerAttempts = s0.registerAttempts := by
  have H := missing_wireless_or_mcu_aborts_sync env0 scenarioPayload s0 rfl (.inl rfl)
  exact ⟨H.2.1, H.2.2⟩
